import Mathlib

/-!
Verification development for the IOService REST backend
(`src/IOService/app.py`): a Flask CRUD service over a PostgreSQL store
with four tables (Users, Wallets, games, purchases).

The embedding below is a shallow model of the handlers.  JSON request
bodies are association lists of string keys and JSON values; the store
is a record of four row lists plus the serial counters for the
generated ids.  Each handler is a pure function from the store and the
request data to a response and the next store.  Statement failures that
the model cannot predict from the store contents (connectivity lost
mid-query, crash, transient store errors) are injected through explicit
boolean oracle parameters, mirroring the try/except/commit/rollback
structure of the source.

Database-side semantics that live in the schema rather than in
`app.py` (the schema file is not part of the sources) are modelled from
the spec, sections 3 and 6: Users.uid and Wallets.uid are keys,
games.publisher references Users.uid, purchases reference games and
Users.  A bound value whose type does not match the column is modelled
as a store-layer error; the lenient text-to-column casts PostgreSQL
would additionally accept are not modelled, and no claim depends on
them.
-/

/-- JSON values as they appear in request and response bodies. -/
inductive Jval where
  | str (s : String)
  | int (n : Int)
  | bool (b : Bool)
  | null
deriving DecidableEq, Repr

/-- A JSON object: association list of key/value pairs (Python dict). -/
abbrev Jobj := List (String × Jval)

/-- A JSON response body: a single object or an array of objects. -/
inductive Jbody where
  | obj (o : Jobj)
  | arr (a : List Jobj)
deriving DecidableEq, Repr

/-- An HTTP response: status code and JSON body. -/
structure Resp where
  status : Nat
  body : Jbody
deriving DecidableEq, Repr

/-- Value of a list of decimal digit characters. -/
def digitsToNat (l : List Char) : Nat :=
  l.foldl (fun n c => 10 * n + (c.toNat - 48)) 0

/-- Python `int(...)` on a decimal string: optional sign, then digits. -/
def pyIntOfString (s : String) : Option Int :=
  match s.toList with
  | [] => none
  | '-' :: rest =>
    if rest ≠ [] ∧ rest.all Char.isDigit then
      some (-(digitsToNat rest : Int))
    else none
  | '+' :: rest =>
    if rest ≠ [] ∧ rest.all Char.isDigit then
      some (digitsToNat rest : Int)
    else none
  | l =>
    if l.all Char.isDigit then some (digitsToNat l : Int) else none

/-- Python `int(...)` on a JSON value: ints pass through, booleans map
to 0/1, numeric strings are parsed, everything else raises. -/
def pyInt : Jval → Option Int
  | .int n => some n
  | .bool b => some (if b then 1 else 0)
  | .str s => pyIntOfString s
  | .null => none

/-- A row of the Users table. -/
structure UserRow where
  uid : Nat
  email : String
  passwd : String
  is_publisher : Bool
  is_admin : Bool
deriving DecidableEq, Repr

/-- A row of the Wallets table. -/
structure WalletRow where
  uid : Nat
  balance : Int
deriving DecidableEq, Repr

/-- A row of the games table. -/
structure GameRow where
  gid : Nat
  name : String
  description : String
  price : Int
  publisher : Nat
  status : String
deriving DecidableEq, Repr

/-- A row of the purchases table.  The date is the server-assigned
timestamp, modelled as a natural number. -/
structure PurchaseRow where
  pid : Nat
  game_id : Nat
  user_id : Nat
  date : Nat
  hours_played : Int
deriving DecidableEq, Repr

/-- The relational store: the four tables plus the serial counters
that generate Users.uid and games.gid. -/
structure DB where
  users : List UserRow
  wallets : List WalletRow
  games : List GameRow
  purchases : List PurchaseRow
  nextUid : Nat
  nextGid : Nat
deriving DecidableEq, Repr

/-- The columns of a user row returned to clients:
`RETURNING uid, email, is_publisher, is_admin` — the passwd column is
never serialized. -/
def userToJson (u : UserRow) : Jobj :=
  [("uid", .int u.uid), ("email", .str u.email),
   ("is_publisher", .bool u.is_publisher), ("is_admin", .bool u.is_admin)]

/-- `RETURNING uid, balance` for wallet rows. -/
def walletToJson (w : WalletRow) : Jobj :=
  [("uid", .int w.uid), ("balance", .int w.balance)]

/-- `RETURNING gid, name, description, price, publisher, status` for
game rows (create and update; no publisher email here). -/
def gameToJson (g : GameRow) : Jobj :=
  [("gid", .int g.gid), ("name", .str g.name),
   ("description", .str g.description), ("price", .int g.price),
   ("publisher", .int g.publisher), ("status", .str g.status)]

/-- Handler-level store error: the except branch returns
`jsonify error = str(e)` with status 500. -/
def dbErr (msg : String) : Resp :=
  ⟨500, .obj [("error", .str msg)]⟩

/-- The generic fallback body produced by the process-wide error
handler for failures that are neither store errors, connection
failures, nor HTTP errors (missing JSON key, bad int coercion, ...). -/
def genericErr : Resp :=
  ⟨500, .obj [("error", .str "Internal Server Error"),
              ("detail", .str "An unexpected error occurred.")]⟩

/-- A local not-found response with the given message. -/
def notFound (msg : String) : Resp :=
  ⟨404, .obj [("error", .str msg)]⟩

/-- Fixed message used for the store-layer syntax error raised when an
UPDATE is built with an empty SET list. -/
def sqlSyntaxErrMsg : String := "syntax error at or near WHERE"

/-- Fixed message used for a store-layer type error on a bound value. -/
def sqlTypeErrMsg : String := "column type mismatch"

-- --- Users ---

/-- POST /users.  Reads email and passwd (KeyError when missing falls
through to the generic handler), defaults is_publisher/is_admin to
False, inserts the user row and commits, then inserts the dependent
wallet row with balance 0 and commits again.  A failure of either
insert is reported with status 500 after a rollback; the oracle
booleans inject failures that are invisible in the store state, and a
duplicate key makes the corresponding insert fail deterministically. -/
def create_user (st : DB) (data : Jobj) (failUser failWallet : Bool) :
    Resp × DB :=
  match data.lookup "email", data.lookup "passwd" with
  | some (.str email), some (.str passwd) =>
    match (data.lookup "is_publisher").getD (.bool false),
          (data.lookup "is_admin").getD (.bool false) with
    | .bool pub, .bool adm =>
      if failUser || st.users.any (fun u => u.uid == st.nextUid) then
        (dbErr "insert into Users failed", st)
      else if failWallet || st.wallets.any (fun w => w.uid == st.nextUid) then
        (dbErr "insert into Wallets failed",
         { st with
             users := st.users ++ [⟨st.nextUid, email, passwd, pub, adm⟩],
             nextUid := st.nextUid + 1 })
      else
        (⟨201, .obj (userToJson ⟨st.nextUid, email, passwd, pub, adm⟩)⟩,
         { st with
             users := st.users ++ [⟨st.nextUid, email, passwd, pub, adm⟩],
             wallets := st.wallets ++ [⟨st.nextUid, 0⟩],
             nextUid := st.nextUid + 1 })
    | _, _ => (dbErr sqlTypeErrMsg, st)
  | _, _ => (genericErr, st)

/-- Relation used by `ORDER BY uid` on the Users table. -/
def uidLe (a b : UserRow) : Prop := a.uid ≤ b.uid

instance : DecidableRel uidLe := fun a b => Nat.decLe a.uid b.uid

instance : IsTotal UserRow uidLe := ⟨fun a b => Nat.le_total a.uid b.uid⟩

instance : IsTrans UserRow uidLe :=
  ⟨fun _ _ _ h1 h2 => Nat.le_trans h1 h2⟩

/-- GET /users: all users ordered by uid, passwd never selected. -/
def get_users (st : DB) : Resp :=
  ⟨200, .arr ((st.users.insertionSort uidLe).map userToJson)⟩

/-- GET /users/uid: the first row matching the uid, else 404. -/
def get_user (st : DB) (uid : Nat) : Resp :=
  match st.users.find? (fun u => u.uid == uid) with
  | some u => ⟨200, .obj (userToJson u)⟩
  | none => notFound "User not found"

/-- The update whitelist for Users. -/
def validUserFields : List String :=
  ["email", "passwd", "is_publisher", "is_admin"]

/-- Whether a recognized user field is bound with a value of the type
of its column. -/
def userFieldOk : String × Jval → Bool
  | ("email", .str _) => true
  | ("passwd", .str _) => true
  | ("is_publisher", .bool _) => true
  | ("is_admin", .bool _) => true
  | _ => false

/-- Effect of one SET clause on a user row (ill-typed values leave the
row unchanged here; `update_user` rejects them beforehand). -/
def applyUserField (u : UserRow) (kv : String × Jval) : UserRow :=
  if kv.1 = "email" then
    match kv.2 with
    | .str s => { u with email := s }
    | _ => u
  else if kv.1 = "passwd" then
    match kv.2 with
    | .str s => { u with passwd := s }
    | _ => u
  else if kv.1 = "is_publisher" then
    match kv.2 with
    | .bool b => { u with is_publisher := b }
    | _ => u
  else if kv.1 = "is_admin" then
    match kv.2 with
    | .bool b => { u with is_admin := b }
    | _ => u
  else u

/-- PUT /users/uid.  Intersects the body keys with the whitelist in
body order, builds `UPDATE Users SET ... WHERE uid = %s RETURNING ...`.
An empty SET list is a store-layer syntax error; an ill-typed bound
value is a store-layer type error; no matching row is a local 404
after rollback; otherwise every matching row is updated and the
returned row (without passwd) is sent with 200. -/
def update_user (st : DB) (uid : Nat) (data : Jobj) : Resp × DB :=
  let fields := data.filter (fun kv => decide (kv.1 ∈ validUserFields))
  if fields.isEmpty then (dbErr sqlSyntaxErrMsg, st)
  else if !(fields.all userFieldOk) then (dbErr sqlTypeErrMsg, st)
  else
    match st.users.find? (fun u => u.uid == uid) with
    | none => (notFound "User not found", st)
    | some u =>
      (⟨200, .obj (userToJson (fields.foldl applyUserField u))⟩,
       { st with users := st.users.map (fun v =>
           if v.uid == uid then fields.foldl applyUserField v else v) })

/-- DELETE /users/uid.  No matching row is a local 404 after rollback;
deleting a referenced user violates a foreign key (Wallets.uid,
games.publisher, purchases.user_id all reference Users.uid — modelled
from the spec, section 3); otherwise the rows are removed and a message
is returned. -/
def delete_user (st : DB) (uid : Nat) : Resp × DB :=
  match st.users.find? (fun u => u.uid == uid) with
  | none => (notFound "User not found", st)
  | some _ =>
    if st.wallets.any (fun w => w.uid == uid) ||
       st.games.any (fun g => g.publisher == uid) ||
       st.purchases.any (fun p => p.user_id == uid) then
      (dbErr "foreign key violation on Users", st)
    else
      (⟨200, .obj [("message",
          .str ("User " ++ toString uid ++ " deleted successfully"))]⟩,
       { st with users := st.users.filter (fun u => !(u.uid == uid)) })

-- --- Wallets ---

/-- GET /wallets/uid: the first wallet matching the uid, else 404. -/
def get_wallet (st : DB) (uid : Nat) : Resp :=
  match st.wallets.find? (fun w => w.uid == uid) with
  | some w => ⟨200, .obj (walletToJson w)⟩
  | none => notFound "Wallet not found"

/-- PUT /wallets/uid.  Reads balance from the body (KeyError when
missing falls through to the generic handler), coerces it with
`int(...)` (a coercion failure also falls through to the generic
handler), then runs the fixed UPDATE: no matching row is a local 404
after rollback, otherwise the new balance is stored and the updated
row returned with 200.  Both steps happen before the store is touched,
so a body failure leaves the store unchanged. -/
def update_wallet_balance (st : DB) (uid : Nat) (data : Jobj) :
    Resp × DB :=
  match data.lookup "balance" with
  | none => (genericErr, st)
  | some v =>
    match pyInt v with
    | none => (genericErr, st)
    | some b =>
      match st.wallets.find? (fun w => w.uid == uid) with
      | none => (notFound "Wallet not found", st)
      | some w =>
        (⟨200, .obj (walletToJson ⟨w.uid, b⟩)⟩,
         { st with wallets := st.wallets.map (fun x =>
             if x.uid == uid then ⟨x.uid, b⟩ else x) })

-- --- Games ---

/-- POST /games.  Reads name, description (default empty), price,
publisher and status; missing required keys and a failing
`int(price)` raise before the store is touched and fall through to the
generic handler.  The insert requires the publisher to reference an
existing user (foreign key, modelled from the spec, section 3) and a
fresh gid; the created row is returned with 201. -/
def create_game (st : DB) (data : Jobj) : Resp × DB :=
  match data.lookup "name", data.lookup "price",
        data.lookup "publisher", data.lookup "status" with
  | some nameV, some priceV, some pubV, some statusV =>
    match pyInt priceV with
    | none => (genericErr, st)
    | some price =>
      match nameV, (data.lookup "description").getD (.str ""),
            pubV, statusV with
      | .str name, .str description, .int pub, .str status =>
        if st.users.any (fun u => (u.uid : Int) == pub) then
          if st.games.any (fun g => g.gid == st.nextGid) then
            (dbErr "insert into games failed", st)
          else
            let g : GameRow :=
              ⟨st.nextGid, name, description, price, pub.toNat, status⟩
            (⟨201, .obj (gameToJson g)⟩,
             { st with games := st.games ++ [g],
                       nextGid := st.nextGid + 1 })
        else (dbErr "foreign key violation on games.publisher", st)
      | _, _, _, _ => (dbErr sqlTypeErrMsg, st)
  | _, _, _, _ => (genericErr, st)

/-- The enriched game row served by GET /games/gid: the game columns
joined with the publisher user to add publisher_email. -/
def gameJoinToJson (g : GameRow) (u : UserRow) : Jobj :=
  [("gid", .int g.gid), ("name", .str g.name),
   ("description", .str g.description), ("price", .int g.price),
   ("publisher", .int g.publisher), ("publisher_email", .str u.email),
   ("status", .str g.status)]

/-- GET /games/gid: the first game matching the gid inner-joined with
its publisher user; a missing game, or a publisher uid with no user
row, yields the 404 branch (the join drops the row). -/
def get_game (st : DB) (gid : Nat) : Resp :=
  match st.games.find? (fun g => g.gid == gid) with
  | none => notFound "Game not found"
  | some g =>
    match st.users.find? (fun u => u.uid == g.publisher) with
    | none => notFound "Game not found"
    | some u => ⟨200, .obj (gameJoinToJson g u)⟩

/-- The update whitelist for games. -/
def validGameFields : List String :=
  ["name", "description", "price", "status"]

/-- The body loop of the game update: recognized keys are collected in
body order and the price value is coerced with `int(...)` on the spot;
a coercion failure raises out of the handler before the connection is
opened (`none`). -/
def collectGameFields : Jobj → Option (List (String × Jval))
  | [] => some []
  | (k, v) :: rest =>
    if k ∈ validGameFields then
      if k = "price" then
        match pyInt v with
        | none => none
        | some n => (collectGameFields rest).map (fun l => ("price", Jval.int n) :: l)
      else (collectGameFields rest).map (fun l => (k, v) :: l)
    else collectGameFields rest

/-- Whether a collected game field is bound with a value of the type
of its column (price is already an int after the loop). -/
def gameFieldOk : String × Jval → Bool
  | ("name", .str _) => true
  | ("description", .str _) => true
  | ("price", .int _) => true
  | ("status", .str _) => true
  | _ => false

/-- Effect of one SET clause on a game row. -/
def applyGameField (g : GameRow) : String × Jval → GameRow
  | ("name", .str s) => { g with name := s }
  | ("description", .str s) => { g with description := s }
  | ("price", .int n) => { g with price := n }
  | ("status", .str s) => { g with status := s }
  | _ => g

/-- PUT /games/gid.  The body loop collects whitelisted keys and
coerces price (a coercion failure is a generic 500 with the store
untouched); an empty SET list is a store-layer syntax error; an
ill-typed bound value is a store-layer type error; no matching row is
a local 404 after rollback; otherwise every matching row is updated
and the returned row sent with 200. -/
def update_game (st : DB) (gid : Nat) (data : Jobj) : Resp × DB :=
  match collectGameFields data with
  | none => (genericErr, st)
  | some fields =>
    if fields.isEmpty then (dbErr sqlSyntaxErrMsg, st)
    else if !(fields.all gameFieldOk) then (dbErr sqlTypeErrMsg, st)
    else
      match st.games.find? (fun g => g.gid == gid) with
      | none => (notFound "Game not found", st)
      | some g =>
        (⟨200, .obj (gameToJson (fields.foldl applyGameField g))⟩,
         { st with games := st.games.map (fun v =>
             if v.gid == gid then fields.foldl applyGameField v else v) })

/-- DELETE /games/gid.  No matching row is a local 404 after rollback;
deleting a game referenced by purchases violates a foreign key
(modelled from the spec, section 3); otherwise the rows are removed
and a message returned. -/
def delete_game (st : DB) (gid : Nat) : Resp × DB :=
  match st.games.find? (fun g => g.gid == gid) with
  | none => (notFound "Game not found", st)
  | some _ =>
    if st.purchases.any (fun p => p.game_id == gid) then
      (dbErr "foreign key violation on purchases.game_id", st)
    else
      (⟨200, .obj [("message",
          .str ("Game " ++ toString gid ++ " deleted successfully"))]⟩,
       { st with games := st.games.filter (fun g => !(g.gid == gid)) })

-- --- Purchases ---

/-- The WHERE clause of GET /purchases: optional user and game filters
combined with AND. -/
def purchaseMatches (uf gf : Option Int) (p : PurchaseRow) : Bool :=
  (match uf with
   | none => true
   | some u => (p.user_id : Int) == u) &&
  (match gf with
   | none => true
   | some g => (p.game_id : Int) == g)

/-- Relation used by `ORDER BY p.date DESC` on purchases. -/
def dateGe (a b : PurchaseRow) : Prop := b.date ≤ a.date

instance : DecidableRel dateGe := fun a b => Nat.decLe b.date a.date

instance : IsTotal PurchaseRow dateGe :=
  ⟨fun a b => Nat.le_total b.date a.date⟩

instance : IsTrans PurchaseRow dateGe :=
  ⟨fun _ _ _ h1 h2 => Nat.le_trans h2 h1⟩

/-- The purchase rows selected by GET /purchases before the join:
filtered by the optional conditions and ordered by date descending. -/
def selectPurchases (st : DB) (uf gf : Option Int) : List PurchaseRow :=
  (st.purchases.filter (purchaseMatches uf gf)).insertionSort dateGe

/-- The enriched purchase row served by GET /purchases: the purchase
columns inner-joined with the game name and the user email; `none`
when the referenced game or user row is missing (the join drops the
row). -/
def enrichPurchase (st : DB) (p : PurchaseRow) : Option Jobj :=
  match st.games.find? (fun g => g.gid == p.game_id),
        st.users.find? (fun u => u.uid == p.user_id) with
  | some g, some u =>
    some [("pid", .int p.pid), ("game_id", .int p.game_id),
          ("game_name", .str g.name), ("user_id", .int p.user_id),
          ("user_email", .str u.email), ("date", .int p.date),
          ("hours_played", .int p.hours_played)]
  | _, _ => none

/-- GET /purchases with the optional user_id and game_id query
filters. -/
def get_purchases (st : DB) (uf gf : Option Int) : Resp :=
  ⟨200, .arr ((selectPurchases st uf gf).filterMap (enrichPurchase st))⟩

/-- The columns of a purchase row returned by create/update:
`RETURNING pid, game_id, user_id, date, hours_played`. -/
def purchaseToJson (p : PurchaseRow) : Jobj :=
  [("pid", .int p.pid), ("game_id", .int p.game_id),
   ("user_id", .int p.user_id), ("date", .int p.date),
   ("hours_played", .int p.hours_played)]

/-- PUT /purchases/pid.  Reads hours_played from the body (KeyError
when missing falls through to the generic handler), coerces it with
`int(...)` (failure likewise), then runs the fixed UPDATE: no matching
row is a local 404 after rollback, otherwise the value is stored and
the updated row returned with 200. -/
def update_purchase (st : DB) (pid : Nat) (data : Jobj) : Resp × DB :=
  match data.lookup "hours_played" with
  | none => (genericErr, st)
  | some v =>
    match pyInt v with
    | none => (genericErr, st)
    | some h =>
      match st.purchases.find? (fun p => p.pid == pid) with
      | none => (notFound "Purchase not found", st)
      | some p =>
        (⟨200, .obj (purchaseToJson { p with hours_played := h })⟩,
         { st with purchases := st.purchases.map (fun x =>
             if x.pid == pid then { x with hours_played := h } else x) })

/-- DELETE /purchases/pid.  No matching row is a local 404 after
rollback; otherwise the rows are removed and a message returned (no
table references purchases). -/
def delete_purchase (st : DB) (pid : Nat) : Resp × DB :=
  match st.purchases.find? (fun p => p.pid == pid) with
  | none => (notFound "Purchase not found", st)
  | some _ =>
    (⟨200, .obj [("message",
        .str ("Purchase " ++ toString pid ++ " deleted successfully"))]⟩,
     { st with purchases := st.purchases.filter (fun p => !(p.pid == pid)) })

-- --- Generic Error Translator ---

/-- The uncaught failures reaching the process-wide error handler:
store-layer errors (psycopg2.Error), the connection-unavailable signal
(ConnectionError raised by the connection factory), framework errors
carrying an HTTP status code, and anything else. -/
inductive Exc where
  | pgError (msg : String)
  | connError (msg : String)
  | httpError (code : Nat) (name desc : String)
  | other
deriving DecidableEq, Repr

/-- Outcome of the best-effort rollback attempt inside the handler:
opening a fresh connection and rolling it back either succeeds, fails
with a store-layer error (caught and logged), or fails at
connection-open time with the connection-unavailable signal — which
the surrounding `except psycopg2.Error` clause does not catch. -/
inductive RollbackAttempt where
  | ok
  | pgFail (msg : String)
  | connFail (msg : String)
deriving DecidableEq, Repr

/-- The process-wide error handler.  A store-layer error answers 500
with the Database error body after the rollback attempt — unless
opening the fresh connection fails, in which case the
connection-unavailable exception escapes the handler (`.error`).  The
connection-unavailable signal answers 503; an HTTP error in 400–599
passes through; everything else gets the generic 500 body. -/
def handle_exception (e : Exc) (rb : RollbackAttempt) :
    Except String Resp :=
  match e with
  | .pgError msg =>
    match rb with
    | .connFail m => .error m
    | _ =>
      .ok ⟨500, .obj [("error", .str "Database error"),
                      ("detail", .str msg)]⟩
  | .connError msg =>
    .ok ⟨503, .obj [("error", .str "Database connection failed"),
                    ("detail", .str msg)]⟩
  | .httpError code name desc =>
    if 400 ≤ code ∧ code < 600 then
      .ok ⟨code, .obj [("error", .str name), ("detail", .str desc)]⟩
    else .ok genericErr
  | .other => .ok genericErr


-- --- Helper lemmas ---

/-- Looking up a whitelisted key is unchanged by filtering the object
down to the whitelisted keys. -/
theorem lookup_filter_mem (k : String) (ks : List String)
    (hk : k ∈ ks) :
    ∀ l : Jobj, (l.filter (fun kv => decide (kv.1 ∈ ks))).lookup k
      = l.lookup k := by
  intro l
  induction l with
  | nil => rfl
  | cons kv t ih =>
    obtain ⟨a, b⟩ := kv
    by_cases hka : k = a
    · subst hka
      simp [List.filter_cons, hk]
    · have h1 : (k == a) = false := by
        simp [hka]
      by_cases ha : a ∈ ks
      · simp [List.filter_cons, ha, List.lookup_cons, h1, ih]
      · simp [List.filter_cons, ha, List.lookup_cons, h1, ih]

/-- The game-update body loop only looks at whitelisted keys. -/
theorem collectGameFields_filter (data : Jobj) :
    collectGameFields
        (data.filter (fun kv => decide (kv.1 ∈ validGameFields)))
      = collectGameFields data := by
  induction data with
  | nil => rfl
  | cons kv t ih =>
    obtain ⟨a, b⟩ := kv
    by_cases ha : a ∈ validGameFields
    · by_cases hp : a = "price"
      · subst hp
        cases hpy : pyInt b <;>
          simp [List.filter_cons, ha, collectGameFields, hpy, ih]
      · simp [List.filter_cons, ha, collectGameFields, hp, ih]
    · simp [List.filter_cons, ha, collectGameFields, ih]

/-- A body with no whitelisted key makes the game-update loop collect
nothing (and raise nothing). -/
theorem collectGameFields_eq_nil (data : Jobj)
    (h : data.filter (fun kv => decide (kv.1 ∈ validGameFields)) = []) :
    collectGameFields data = some [] := by
  induction data with
  | nil => rfl
  | cons kv t ih =>
    obtain ⟨a, b⟩ := kv
    rw [List.filter_cons] at h
    by_cases ha : a ∈ validGameFields
    · rw [if_pos (by simpa using ha)] at h
      exact absurd h (List.cons_ne_nil _ _)
    · rw [if_neg (by simpa using ha)] at h
      simp [collectGameFields, ha, ih h]

/-- `filterMap` drops nothing when the function is total on the
list. -/
theorem filterMap_eq_map_getD {α β : Type} (f : α → Option β) (d : β)
    (l : List α) (h : ∀ a ∈ l, (f a).isSome) :
    l.filterMap f = l.map (fun a => (f a).getD d) := by
  induction l with
  | nil => rfl
  | cons x t ih =>
    have hx : (f x).isSome := h x (List.mem_cons_self x t)
    obtain ⟨b, hb⟩ := Option.isSome_iff_exists.mp hx
    rw [List.filterMap_cons, List.map_cons, hb]
    simp only [Option.getD_some]
    exact congrArg (b :: ·) (ih (fun a ha => h a (List.mem_cons_of_mem x ha)))

-- --- Claims ---

/-- Claim C4: for every update request, the body keys are filtered
against the fixed per-resource whitelist (Users: email, passwd,
is_publisher, is_admin; games: name, description, price, status;
Wallets: balance; purchases: hours_played): keys outside the whitelist
are silently ignored and the handler result is unchanged when they are
dropped; concretely, updating a game with a body holding price "750"
and an unknown field updates only the price, to the integer 750. -/
theorem C4_update_whitelist :
    (∀ (st : DB) (uid : Nat) (data : Jobj),
      update_user st uid data
        = update_user st uid
            (data.filter (fun kv => decide (kv.1 ∈ validUserFields)))) ∧
    (∀ (st : DB) (gid : Nat) (data : Jobj),
      update_game st gid data
        = update_game st gid
            (data.filter (fun kv => decide (kv.1 ∈ validGameFields)))) ∧
    (∀ (st : DB) (uid : Nat) (data : Jobj),
      update_wallet_balance st uid data
        = update_wallet_balance st uid
            (data.filter (fun kv => decide (kv.1 ∈ (["balance"] : List String))))) ∧
    (∀ (st : DB) (pid : Nat) (data : Jobj),
      update_purchase st pid data
        = update_purchase st pid
            (data.filter (fun kv => decide (kv.1 ∈ (["hours_played"] : List String))))) ∧
    (∀ (st : DB) (gid : Nat) (g : GameRow),
      st.games.find? (fun x => x.gid == gid) = some g →
      update_game st gid
          [("price", .str "750"), ("unknown_field", .str "x")]
        = (⟨200, .obj (gameToJson { g with price := 750 })⟩,
           { st with games := st.games.map (fun v =>
               if v.gid == gid then { v with price := 750 } else v) })) := by
  refine ⟨?_, ?_, ?_, ?_, ?_⟩
  · intro st uid data
    have hf : (data.filter (fun kv => decide (kv.1 ∈ validUserFields))).filter
          (fun kv => decide (kv.1 ∈ validUserFields))
        = data.filter (fun kv => decide (kv.1 ∈ validUserFields)) := by
      simp [List.filter_filter]
    simp only [update_user, hf]
  · intro st gid data
    simp only [update_game, collectGameFields_filter]
  · intro st uid data
    simp only [update_wallet_balance,
      lookup_filter_mem "balance" ["balance"] (by simp) data]
  · intro st pid data
    simp only [update_purchase,
      lookup_filter_mem "hours_played" ["hours_played"] (by simp) data]
  · intro st gid g hg
    have hc : collectGameFields
          [("price", Jval.str "750"), ("unknown_field", Jval.str "x")]
        = some [("price", Jval.int 750)] := by decide
    simp only [update_game, hc]
    simp [hg, applyGameField, gameFieldOk]

/-- Claim C4 witness at a concrete store. -/
theorem C4_update_whitelist_witness :
    update_game ⟨[⟨1, "e", "p", true, false⟩], [],
        [⟨7, "Chess", "", 500, 1, "active"⟩], [], 2, 8⟩ 7
        [("price", .str "750"), ("unknown_field", .str "x")]
      = (⟨200, .obj (gameToJson ⟨7, "Chess", "", 750, 1, "active"⟩)⟩,
         ⟨[⟨1, "e", "p", true, false⟩], [],
          [⟨7, "Chess", "", 750, 1, "active"⟩], [], 2, 8⟩) := by
  have h := C4_update_whitelist.2.2.2.2
    ⟨[⟨1, "e", "p", true, false⟩], [],
     [⟨7, "Chess", "", 500, 1, "active"⟩], [], 2, 8⟩ 7
    ⟨7, "Chess", "", 500, 1, "active"⟩ (by rfl)
  refine h.trans ?_
  decide

/-- Claim C5: an update body with zero recognized fields makes the
user and game handlers emit a statement with an empty SET list, which
fails at the store layer and is answered with status 500 (not 400),
leaving the store unchanged. -/
theorem C5_empty_update_is_500 :
    (∀ (st : DB) (uid : Nat) (data : Jobj),
      data.filter (fun kv => decide (kv.1 ∈ validUserFields)) = [] →
      update_user st uid data = (dbErr sqlSyntaxErrMsg, st) ∧
      (update_user st uid data).1.status = 500) ∧
    (∀ (st : DB) (gid : Nat) (data : Jobj),
      data.filter (fun kv => decide (kv.1 ∈ validGameFields)) = [] →
      update_game st gid data = (dbErr sqlSyntaxErrMsg, st) ∧
      (update_game st gid data).1.status = 500) := by
  constructor
  · intro st uid data h
    have he : update_user st uid data = (dbErr sqlSyntaxErrMsg, st) := by
      simp only [update_user, h]
      rfl
    exact ⟨he, by rw [he]; rfl⟩
  · intro st gid data h
    have hc := collectGameFields_eq_nil data h
    have he : update_game st gid data = (dbErr sqlSyntaxErrMsg, st) := by
      simp only [update_game, hc]
      rfl
    exact ⟨he, by rw [he]; rfl⟩

/-- Claim C5 witness at a concrete store and body. -/
theorem C5_empty_update_is_500_witness :
    update_user ⟨[⟨1, "e", "p", true, false⟩], [], [], [], 2, 1⟩ 1
        [("unknown_field", .str "x")]
      = (dbErr sqlSyntaxErrMsg,
         ⟨[⟨1, "e", "p", true, false⟩], [], [], [], 2, 1⟩) :=
  (C5_empty_update_is_500.1
    ⟨[⟨1, "e", "p", true, false⟩], [], [], [], 2, 1⟩ 1
    [("unknown_field", .str "x")] (by rfl)).1

/-- Shape of a successful user creation: status 201 forces both oracle
failures off and a fresh wallet key, and then both the user row and
its wallet row are appended. -/
theorem create_user_201 (st : DB) (data : Jobj) (fU fW : Bool)
    (h : (create_user st data fU fW).1.status = 201) :
    fU = false ∧ fW = false ∧
    st.wallets.any (fun w => w.uid == st.nextUid) = false ∧
    ∃ u : UserRow,
      (create_user st data fU fW).1 = ⟨201, .obj (userToJson u)⟩ ∧
      (create_user st data fU fW).2
        = { st with users := st.users ++ [u],
                    wallets := st.wallets ++ [⟨st.nextUid, 0⟩],
                    nextUid := st.nextUid + 1 } ∧
      u.uid = st.nextUid := by
  unfold create_user at h ⊢
  split at h
  · split at h
    · by_cases h1 : (fU || st.users.any (fun u => u.uid == st.nextUid)) = true
      · rw [if_pos h1] at h
        simp [dbErr] at h
      · rw [if_neg h1] at h
        by_cases h2 : (fW || st.wallets.any (fun w => w.uid == st.nextUid)) = true
        · rw [if_pos h2] at h
          simp [dbErr] at h
        · rw [if_neg h2] at h
          have h1n := h1
          have h2n := h2
          simp only [Bool.or_eq_true, not_or, Bool.not_eq_true] at h1n h2n
          refine ⟨h1n.1, h2n.1, h2n.2, ?_⟩
          rw [if_neg h1, if_neg h2]
          exact ⟨_, rfl, rfl, rfl⟩
    · simp [dbErr, sqlTypeErrMsg] at h
  · simp [genericErr] at h

/-- Claim C1: every successful user creation (status 201) leaves
exactly one wallet row for the new uid, with balance 0, and that row
is visible to a subsequent wallet read. -/
theorem C1_user_creation_creates_wallet (st : DB) (data : Jobj)
    (fU fW : Bool)
    (h : (create_user st data fU fW).1.status = 201) :
    ((create_user st data fU fW).2.wallets.filter
        (fun w => w.uid == st.nextUid)) = [⟨st.nextUid, 0⟩] ∧
    get_wallet (create_user st data fU fW).2 st.nextUid
      = ⟨200, .obj (walletToJson ⟨st.nextUid, 0⟩)⟩ := by
  obtain ⟨_, _, hany, u, _, hst, _⟩ := create_user_201 st data fU fW h
  rw [hst]
  have hforall : ∀ w ∈ st.wallets, ¬((fun w => w.uid == st.nextUid) w = true) := by
    intro w hw hww
    have : st.wallets.any (fun w => w.uid == st.nextUid) = true :=
      List.any_eq_true.mpr ⟨w, hw, hww⟩
    rw [this] at hany
    exact Bool.noConfusion hany
  constructor
  · rw [List.filter_append, List.filter_eq_nil_iff.mpr
      (fun a ha => hforall a ha)]
    simp
  · unfold get_wallet
    rw [List.find?_append, List.find?_eq_none.mpr hforall]
    simp [walletToJson]

/-- Claim C1 witness: creating a user in the empty store succeeds and
its wallet is immediately readable with balance 0. -/
theorem C1_user_creation_creates_wallet_witness :
    ((create_user ⟨[], [], [], [], 1, 1⟩
        [("email", .str "a@b"), ("passwd", .str "pw")] false false).2.wallets.filter
      (fun w => w.uid == 1)) = [⟨1, 0⟩] ∧
    get_wallet (create_user ⟨[], [], [], [], 1, 1⟩
        [("email", .str "a@b"), ("passwd", .str "pw")] false false).2 1
      = ⟨200, .obj (walletToJson ⟨1, 0⟩)⟩ :=
  C1_user_creation_creates_wallet ⟨[], [], [], [], 1, 1⟩
    [("email", .str "a@b"), ("passwd", .str "pw")] false false (by decide)

/-- Claim C2 counterexample: when the wallet insert fails after the
user insert was already committed, the resulting store holds the new
user row and no wallet row at all, while the handler answers 500 — the
two inserts are not atomic. -/
theorem C2_counterexample :
    ((create_user ⟨[], [], [], [], 1, 1⟩
        [("email", .str "a@b"), ("passwd", .str "pw")] false true).2.users.filter
      (fun u => u.uid == 1) ≠ []) ∧
    (create_user ⟨[], [], [], [], 1, 1⟩
        [("email", .str "a@b"), ("passwd", .str "pw")] false true).2.wallets = [] ∧
    (create_user ⟨[], [], [], [], 1, 1⟩
        [("email", .str "a@b"), ("passwd", .str "pw")] false true).1.status = 500 := by
  decide

/-- Claim C2 amended: the user insert is committed in its own
transaction before the wallet insert.  On success (201) both rows are
persisted; but when the wallet insert fails after the user commit, the
handler answers 500 with the user row already persisted and no wallet
row for it — the rollback cannot undo the committed user insert. -/
theorem C2_user_wallet_two_commits :
    (∀ (st : DB) (data : Jobj) (fU fW : Bool),
      (create_user st data fU fW).1.status = 201 →
      ∃ u : UserRow, u.uid = st.nextUid ∧
        (create_user st data fU fW).2.users = st.users ++ [u] ∧
        (create_user st data fU fW).2.wallets
          = st.wallets ++ [⟨st.nextUid, 0⟩]) ∧
    (∀ (st : DB) (data : Jobj) (email passwd : String) (pub adm : Bool),
      data.lookup "email" = some (.str email) →
      data.lookup "passwd" = some (.str passwd) →
      (data.lookup "is_publisher").getD (.bool false) = .bool pub →
      (data.lookup "is_admin").getD (.bool false) = .bool adm →
      st.users.any (fun u => u.uid == st.nextUid) = false →
      create_user st data false true
        = (dbErr "insert into Wallets failed",
           { st with
               users := st.users ++ [⟨st.nextUid, email, passwd, pub, adm⟩],
               nextUid := st.nextUid + 1 })) := by
  constructor
  · intro st data fU fW h
    obtain ⟨_, _, _, u, _, hst, huid⟩ := create_user_201 st data fU fW h
    exact ⟨u, huid, by rw [hst], by rw [hst]⟩
  · intro st data email passwd pub adm hE hP hPub hAdm hfresh
    simp only [create_user, hE, hP, hPub, hAdm, hfresh]
    rfl

/-- Claim C2 amended witness: concrete run in the empty store with the
wallet insert failing. -/
theorem C2_user_wallet_two_commits_witness :
    create_user ⟨[], [], [], [], 1, 1⟩
        [("email", .str "a@b"), ("passwd", .str "pw")] false true
      = (dbErr "insert into Wallets failed",
         ⟨[⟨1, "a@b", "pw", false, false⟩], [], [], [], 2, 1⟩) :=
  C2_user_wallet_two_commits.2 ⟨[], [], [], [], 1, 1⟩
    [("email", .str "a@b"), ("passwd", .str "pw")] "a@b" "pw" false false
    (by rfl) (by rfl) (by rfl) (by rfl) (by rfl)

/-- Claim C6: for every resource, an update of an id with no matching
row (with an otherwise well-formed body) and a delete of an id with no
matching row answer not-found and leave the whole store unchanged (so
every row count is unchanged as well). -/
theorem C6_nonexistent_id_not_found_frame :
    (∀ (st : DB) (uid : Nat) (data : Jobj),
      st.users.find? (fun u => u.uid == uid) = none →
      (data.filter (fun kv => decide (kv.1 ∈ validUserFields))).isEmpty = false →
      (data.filter (fun kv => decide (kv.1 ∈ validUserFields))).all userFieldOk = true →
      update_user st uid data = (notFound "User not found", st)) ∧
    (∀ (st : DB) (gid : Nat) (data : Jobj) (fields : List (String × Jval)),
      st.games.find? (fun g => g.gid == gid) = none →
      collectGameFields data = some fields →
      fields.isEmpty = false →
      fields.all gameFieldOk = true →
      update_game st gid data = (notFound "Game not found", st)) ∧
    (∀ (st : DB) (uid : Nat) (data : Jobj) (v : Jval) (b : Int),
      st.wallets.find? (fun w => w.uid == uid) = none →
      data.lookup "balance" = some v → pyInt v = some b →
      update_wallet_balance st uid data = (notFound "Wallet not found", st)) ∧
    (∀ (st : DB) (pid : Nat) (data : Jobj) (v : Jval) (n : Int),
      st.purchases.find? (fun p => p.pid == pid) = none →
      data.lookup "hours_played" = some v → pyInt v = some n →
      update_purchase st pid data = (notFound "Purchase not found", st)) ∧
    (∀ (st : DB) (uid : Nat),
      st.users.find? (fun u => u.uid == uid) = none →
      delete_user st uid = (notFound "User not found", st)) ∧
    (∀ (st : DB) (gid : Nat),
      st.games.find? (fun g => g.gid == gid) = none →
      delete_game st gid = (notFound "Game not found", st)) ∧
    (∀ (st : DB) (pid : Nat),
      st.purchases.find? (fun p => p.pid == pid) = none →
      delete_purchase st pid = (notFound "Purchase not found", st)) := by
  refine ⟨?_, ?_, ?_, ?_, ?_, ?_, ?_⟩
  · intro st uid data hfind hne hok
    simp [update_user, hfind, hne, hok]
  · intro st gid data fields hfind hc hne hok
    simp [update_game, hc, hfind, hne, hok]
  · intro st uid data v b hfind hv hb
    simp [update_wallet_balance, hv, hb, hfind]
  · intro st pid data v n hfind hv hn
    simp [update_purchase, hv, hn, hfind]
  · intro st uid hfind
    simp [delete_user, hfind]
  · intro st gid hfind
    simp [delete_game, hfind]
  · intro st pid hfind
    simp [delete_purchase, hfind]

/-- Claim C6 witness: concrete misses on every resource of a small
store. -/
theorem C6_nonexistent_id_not_found_frame_witness :
    update_user ⟨[⟨1, "e", "p", true, false⟩], [], [], [], 2, 1⟩ 9
        [("email", .str "n@b")]
      = (notFound "User not found",
         ⟨[⟨1, "e", "p", true, false⟩], [], [], [], 2, 1⟩) ∧
    update_game ⟨[], [], [], [], 1, 1⟩ 9 [("price", .int 5)]
      = (notFound "Game not found", ⟨[], [], [], [], 1, 1⟩) ∧
    update_wallet_balance ⟨[], [⟨1, 3⟩], [], [], 1, 1⟩ 9
        [("balance", .int 4)]
      = (notFound "Wallet not found", ⟨[], [⟨1, 3⟩], [], [], 1, 1⟩) ∧
    update_purchase ⟨[], [], [], [⟨1, 1, 1, 0, 0⟩], 1, 1⟩ 9
        [("hours_played", .int 2)]
      = (notFound "Purchase not found", ⟨[], [], [], [⟨1, 1, 1, 0, 0⟩], 1, 1⟩) ∧
    delete_user ⟨[⟨1, "e", "p", true, false⟩], [], [], [], 2, 1⟩ 9
      = (notFound "User not found",
         ⟨[⟨1, "e", "p", true, false⟩], [], [], [], 2, 1⟩) ∧
    delete_game ⟨[], [], [⟨1, "g", "", 1, 1, "s"⟩], [], 1, 2⟩ 9
      = (notFound "Game not found", ⟨[], [], [⟨1, "g", "", 1, 1, "s"⟩], [], 1, 2⟩) ∧
    delete_purchase ⟨[], [], [], [⟨1, 1, 1, 0, 0⟩], 1, 1⟩ 9
      = (notFound "Purchase not found", ⟨[], [], [], [⟨1, 1, 1, 0, 0⟩], 1, 1⟩) :=
  ⟨C6_nonexistent_id_not_found_frame.1 _ 9 _ (by rfl) (by rfl) (by rfl),
   C6_nonexistent_id_not_found_frame.2.1 _ 9 _ [("price", Jval.int 5)]
     (by rfl) (by rfl) (by rfl) (by rfl),
   C6_nonexistent_id_not_found_frame.2.2.1 _ 9 _ (Jval.int 4) 4
     (by rfl) (by rfl) (by rfl),
   C6_nonexistent_id_not_found_frame.2.2.2.1 _ 9 _ (Jval.int 2) 2
     (by rfl) (by rfl) (by rfl),
   C6_nonexistent_id_not_found_frame.2.2.2.2.1 _ 9 (by rfl),
   C6_nonexistent_id_not_found_frame.2.2.2.2.2.1 _ 9 (by rfl),
   C6_nonexistent_id_not_found_frame.2.2.2.2.2.2 _ 9 (by rfl)⟩

/-- Claim C9: a wallet update accepts every integer balance, negative
ones included: the coerced value is stored and returned exactly as
given. -/
theorem C9_wallet_any_balance (st : DB) (uid : Nat) (data : Jobj)
    (w : WalletRow) (v : Jval) (b : Int)
    (hw : st.wallets.find? (fun x => x.uid == uid) = some w)
    (hv : data.lookup "balance" = some v) (hb : pyInt v = some b) :
    update_wallet_balance st uid data
      = (⟨200, .obj [("uid", .int w.uid), ("balance", .int b)]⟩,
         { st with wallets := st.wallets.map (fun x =>
             if x.uid == uid then ⟨x.uid, b⟩ else x) }) ∧
    ∀ x ∈ (st.wallets.map (fun x =>
        if x.uid == uid then ⟨x.uid, b⟩ else x)), x.uid = uid → x.balance = b := by
  constructor
  · simp [update_wallet_balance, hv, hb, hw, walletToJson]
  · intro x hx hxu
    obtain ⟨y, hy, rfl⟩ := List.mem_map.mp hx
    by_cases hyu : (y.uid == uid) = true
    · simp [hyu]
    · rw [if_neg hyu] at hxu ⊢
      exact absurd (by simp [hxu]) hyu

/-- Claim C9 witness: storing a negative balance in a concrete
wallet. -/
theorem C9_wallet_any_balance_witness :
    update_wallet_balance ⟨[], [⟨1, 5⟩], [], [], 1, 1⟩ 1
        [("balance", .int (-7))]
      = (⟨200, .obj [("uid", .int 1), ("balance", .int (-7))]⟩,
         ⟨[], [⟨1, -7⟩], [], [], 1, 1⟩) := by
  have h := (C9_wallet_any_balance ⟨[], [⟨1, 5⟩], [], [], 1, 1⟩ 1
    [("balance", .int (-7))] ⟨1, 5⟩ (.int (-7)) (-7)
    (by rfl) (by rfl) (by rfl)).1
  refine h.trans ?_
  decide

/-- Claim C3 counterexample: a store-layer error whose best-effort
rollback attempt fails at connection-open time does not yield the
Database error 500 at all — the connection-unavailable exception
escapes the handler (`except psycopg2.Error` does not catch the
ConnectionError raised by the connection factory). -/
theorem C3_counterexample :
    handle_exception (.pgError "boom") (.connFail "no db")
      = .error "no db" ∧
    handle_exception (.pgError "boom") (.connFail "no db")
      ≠ .ok ⟨500, .obj [("error", .str "Database error"),
                        ("detail", .str "boom")]⟩ := by
  refine ⟨rfl, ?_⟩
  intro h
  exact Except.noConfusion h

/-- Claim C3 amended: the classification order is as claimed — store
errors give 500 with the Database error body, the
connection-unavailable signal gives 503, an HTTP code in 400–599
passes through, anything else gets the generic 500 — except that when
the best-effort rollback of a store error cannot even open a fresh
connection, the connection failure escapes the handler instead of the
500 being returned (only store-layer rollback failures are logged and
swallowed). -/
theorem C3_error_translator :
    (∀ (msg : String) (rb : RollbackAttempt),
      (∀ m, rb ≠ .connFail m) →
      handle_exception (.pgError msg) rb
        = .ok ⟨500, .obj [("error", .str "Database error"),
                          ("detail", .str msg)]⟩) ∧
    (∀ (msg m : String),
      handle_exception (.pgError msg) (.connFail m) = .error m) ∧
    (∀ (msg : String) (rb : RollbackAttempt),
      handle_exception (.connError msg) rb
        = .ok ⟨503, .obj [("error", .str "Database connection failed"),
                          ("detail", .str msg)]⟩) ∧
    (∀ (code : Nat) (name desc : String) (rb : RollbackAttempt),
      400 ≤ code → code < 600 →
      handle_exception (.httpError code name desc) rb
        = .ok ⟨code, .obj [("error", .str name), ("detail", .str desc)]⟩) ∧
    (∀ (code : Nat) (name desc : String) (rb : RollbackAttempt),
      ¬(400 ≤ code ∧ code < 600) →
      handle_exception (.httpError code name desc) rb = .ok genericErr) ∧
    (∀ rb : RollbackAttempt, handle_exception .other rb = .ok genericErr) := by
  refine ⟨?_, ?_, ?_, ?_, ?_, ?_⟩
  · intro msg rb hrb
    cases rb with
    | ok => rfl
    | pgFail m => rfl
    | connFail m => exact absurd rfl (hrb m)
  · intro msg m
    rfl
  · intro msg rb
    rfl
  · intro code name desc rb h1 h2
    simp [handle_exception, h1, h2]
  · intro code name desc rb h
    simp [handle_exception, h]
  · intro rb
    rfl

/-- Claim C3 amended witness: a pass-through 404 and a successful
store-error translation at concrete inputs. -/
theorem C3_error_translator_witness :
    handle_exception (.httpError 404 "Not Found" "no route") .ok
      = .ok ⟨404, .obj [("error", .str "Not Found"),
                        ("detail", .str "no route")]⟩ ∧
    handle_exception (.pgError "dup key") .ok
      = .ok ⟨500, .obj [("error", .str "Database error"),
                        ("detail", .str "dup key")]⟩ :=
  ⟨C3_error_translator.2.2.2.1 404 "Not Found" "no route" .ok
     (by decide) (by decide),
   C3_error_translator.1 "dup key" .ok
     (fun m h => RollbackAttempt.noConfusion h)⟩

/-- Claim C8: creating the game Chess with string price "500" for an
existing publisher, then fetching it by the returned id, yields the
integer price 500 and the email of the publisher as
publisher_email. -/
theorem C8_game_round_trip (st : DB) (uid : Nat) (u : UserRow)
    (hu : st.users.find? (fun x => x.uid == uid) = some u)
    (hfresh : st.games.any (fun g => g.gid == st.nextGid) = false) :
    create_game st
        [("name", .str "Chess"), ("price", .str "500"),
         ("publisher", .int uid), ("status", .str "active")]
      = (⟨201, .obj (gameToJson ⟨st.nextGid, "Chess", "", 500, uid, "active"⟩)⟩,
         { st with
             games := st.games ++ [⟨st.nextGid, "Chess", "", 500, uid, "active"⟩],
             nextGid := st.nextGid + 1 }) ∧
    get_game
        { st with
            games := st.games ++ [⟨st.nextGid, "Chess", "", 500, uid, "active"⟩],
            nextGid := st.nextGid + 1 } st.nextGid
      = ⟨200, .obj (gameJoinToJson ⟨st.nextGid, "Chess", "", 500, uid, "active"⟩ u)⟩ ∧
    (gameJoinToJson ⟨st.nextGid, "Chess", "", 500, uid, "active"⟩ u).lookup "price"
      = some (.int 500) ∧
    (gameJoinToJson ⟨st.nextGid, "Chess", "", 500, uid, "active"⟩ u).lookup
        "publisher_email"
      = some (.str u.email) := by
  have humem : u ∈ st.users := List.mem_of_find?_eq_some hu
  have huuid : u.uid = uid := by
    have := List.find?_some hu
    simpa using this
  have hany : st.users.any (fun x => (x.uid : Int) == ((uid : Nat) : Int)) = true :=
    List.any_eq_true.mpr ⟨u, humem, by simp [huuid]⟩
  have hnone : st.games.find? (fun x => x.gid == st.nextGid) = none := by
    rw [List.find?_eq_none]
    intro x hx hxx
    have : st.games.any (fun g => g.gid == st.nextGid) = true :=
      List.any_eq_true.mpr ⟨x, hx, hxx⟩
    rw [this] at hfresh
    exact Bool.noConfusion hfresh
  refine ⟨?_, ?_, rfl, rfl⟩
  · simp only [create_game,
      show List.lookup "name"
          [("name", Jval.str "Chess"), ("price", Jval.str "500"),
           ("publisher", Jval.int uid), ("status", Jval.str "active")]
        = some (Jval.str "Chess") from rfl,
      show List.lookup "price"
          [("name", Jval.str "Chess"), ("price", Jval.str "500"),
           ("publisher", Jval.int uid), ("status", Jval.str "active")]
        = some (Jval.str "500") from rfl,
      show List.lookup "publisher"
          [("name", Jval.str "Chess"), ("price", Jval.str "500"),
           ("publisher", Jval.int uid), ("status", Jval.str "active")]
        = some (Jval.int uid) from rfl,
      show List.lookup "status"
          [("name", Jval.str "Chess"), ("price", Jval.str "500"),
           ("publisher", Jval.int uid), ("status", Jval.str "active")]
        = some (Jval.str "active") from rfl,
      show List.lookup "description"
          [("name", Jval.str "Chess"), ("price", Jval.str "500"),
           ("publisher", Jval.int uid), ("status", Jval.str "active")]
        = none from rfl,
      show pyInt (Jval.str "500") = some 500 from by decide,
      Option.getD_none]
    simp [hany, hfresh]
  · unfold get_game
    rw [List.find?_append, hnone, Option.none_or]
    rw [show List.find? (fun x => x.gid == st.nextGid)
          [(⟨st.nextGid, "Chess", "", 500, uid, "active"⟩ : GameRow)]
        = some ⟨st.nextGid, "Chess", "", 500, uid, "active"⟩ by simp]
    show (match st.users.find? (fun x => x.uid == uid) with
          | none => notFound "Game not found"
          | some v =>
            (⟨200, .obj (gameJoinToJson
                ⟨st.nextGid, "Chess", "", 500, uid, "active"⟩ v)⟩ : Resp))
        = ⟨200, .obj (gameJoinToJson
            ⟨st.nextGid, "Chess", "", 500, uid, "active"⟩ u)⟩
    rw [hu]

/-- Claim C8 witness: the round trip in a one-user store. -/
theorem C8_game_round_trip_witness :
    create_game ⟨[⟨1, "pub@x", "pw", true, false⟩], [], [], [], 2, 1⟩
        [("name", .str "Chess"), ("price", .str "500"),
         ("publisher", .int 1), ("status", .str "active")]
      = (⟨201, .obj (gameToJson ⟨1, "Chess", "", 500, 1, "active"⟩)⟩,
         ⟨[⟨1, "pub@x", "pw", true, false⟩], [],
          [⟨1, "Chess", "", 500, 1, "active"⟩], [], 2, 2⟩) ∧
    get_game ⟨[⟨1, "pub@x", "pw", true, false⟩], [],
        [⟨1, "Chess", "", 500, 1, "active"⟩], [], 2, 2⟩ 1
      = ⟨200, .obj (gameJoinToJson ⟨1, "Chess", "", 500, 1, "active"⟩
          ⟨1, "pub@x", "pw", true, false⟩)⟩ := by
  have h := C8_game_round_trip ⟨[⟨1, "pub@x", "pw", true, false⟩], [], [], [], 2, 1⟩
    1 ⟨1, "pub@x", "pw", true, false⟩ (by rfl) (by rfl)
  exact ⟨h.1, h.2.1⟩

/-- Claim C7: with both the user and the game filter set, the selected
purchase rows are exactly those matching both conditions (AND),
ordered by date descending; with both filters omitted, all purchase
rows are selected in the same order; the response serializes the
selected rows one-to-one (the inner joins drop nothing under the
foreign keys). -/
theorem C7_purchase_list_filters (st : DB) (u g : Int)
    (hfk : ∀ p ∈ st.purchases,
      (st.games.find? (fun x => x.gid == p.game_id)).isSome ∧
      (st.users.find? (fun x => x.uid == p.user_id)).isSome) :
    (selectPurchases st (some u) (some g)).Perm
      (st.purchases.filter (fun p =>
        ((p.user_id : Int) == u) && ((p.game_id : Int) == g))) ∧
    List.Sorted dateGe (selectPurchases st (some u) (some g)) ∧
    (selectPurchases st none none).Perm st.purchases ∧
    List.Sorted dateGe (selectPurchases st none none) ∧
    get_purchases st (some u) (some g)
      = ⟨200, .arr ((selectPurchases st (some u) (some g)).map
          (fun p => (enrichPurchase st p).getD []))⟩ ∧
    get_purchases st none none
      = ⟨200, .arr ((selectPurchases st none none).map
          (fun p => (enrichPurchase st p).getD []))⟩ := by
  have hfilter_all : st.purchases.filter (purchaseMatches none none)
      = st.purchases :=
    List.filter_eq_self.mpr (fun a _ => rfl)
  have htot : ∀ uf gf : Option Int, ∀ p ∈ selectPurchases st uf gf,
      (enrichPurchase st p).isSome := by
    intro uf gf p hp
    have hp1 : p ∈ st.purchases.filter (purchaseMatches uf gf) :=
      (List.perm_insertionSort dateGe _).mem_iff.mp hp
    have hp2 : p ∈ st.purchases := List.mem_of_mem_filter hp1
    obtain ⟨hg', hu'⟩ := hfk p hp2
    obtain ⟨gg, hgg⟩ := Option.isSome_iff_exists.mp hg'
    obtain ⟨uu, huu⟩ := Option.isSome_iff_exists.mp hu'
    simp [enrichPurchase, hgg, huu]
  refine ⟨?_, ?_, ?_, ?_, ?_, ?_⟩
  · exact List.perm_insertionSort dateGe _
  · exact List.sorted_insertionSort dateGe _
  · show (List.insertionSort dateGe
        (st.purchases.filter (purchaseMatches none none))).Perm st.purchases
    rw [hfilter_all]
    exact List.perm_insertionSort dateGe _
  · exact List.sorted_insertionSort dateGe _
  · show (⟨200, .arr ((selectPurchases st (some u) (some g)).filterMap
        (enrichPurchase st))⟩ : Resp) = _
    rw [filterMap_eq_map_getD (enrichPurchase st) []
      (selectPurchases st (some u) (some g)) (htot (some u) (some g))]
  · show (⟨200, .arr ((selectPurchases st none none).filterMap
        (enrichPurchase st))⟩ : Resp) = _
    rw [filterMap_eq_map_getD (enrichPurchase st) []
      (selectPurchases st none none) (htot none none)]

/-- Claim C7 witness: a two-purchase store where the combined filter
keeps one row and the unfiltered listing orders by date descending. -/
theorem C7_purchase_list_filters_witness :
    (selectPurchases ⟨[⟨1, "e", "p", false, false⟩], [],
        [⟨1, "g", "", 1, 1, "s"⟩], [⟨1, 1, 1, 5, 0⟩, ⟨2, 1, 1, 9, 0⟩], 2, 2⟩
        (some 1) (some 1)).Perm
      ([⟨1, 1, 1, 5, 0⟩, ⟨2, 1, 1, 9, 0⟩].filter (fun p =>
        ((p.user_id : Int) == 1) && ((p.game_id : Int) == 1))) ∧
    List.Sorted dateGe (selectPurchases ⟨[⟨1, "e", "p", false, false⟩], [],
        [⟨1, "g", "", 1, 1, "s"⟩], [⟨1, 1, 1, 5, 0⟩, ⟨2, 1, 1, 9, 0⟩], 2, 2⟩
        none none) := by
  have h := C7_purchase_list_filters ⟨[⟨1, "e", "p", false, false⟩], [],
    [⟨1, "g", "", 1, 1, "s"⟩], [⟨1, 1, 1, 5, 0⟩, ⟨2, 1, 1, 9, 0⟩], 2, 2⟩ 1 1
    (by intro p hp; constructor <;> fin_cases hp <;> rfl)
  exact ⟨h.1, h.2.2.2.1⟩

-- --- Password-erasure machinery for the C10 hyperproperty ---

/-- Blank the passwd column of a user row; two rows with the same
erasure differ only in their stored password. -/
def erasePasswd (u : UserRow) : UserRow := { u with passwd := "" }

/-- An order-respecting map commutes with ordered insertion. -/
theorem map_orderedInsert_of_rel {α : Type} (r : α → α → Prop)
    [DecidableRel r] (f : α → α)
    (hf : ∀ a b, r (f a) (f b) ↔ r a b) (a : α) (l : List α) :
    (l.orderedInsert r a).map f = (l.map f).orderedInsert r (f a) := by
  induction l with
  | nil => rfl
  | cons b t ih =>
    by_cases h : r a b
    · simp only [List.orderedInsert, List.map_cons]
      rw [if_pos h, if_pos ((hf a b).mpr h)]
      simp
    · simp only [List.orderedInsert, List.map_cons]
      rw [if_neg h, if_neg (fun hc => h ((hf a b).mp hc))]
      simp [ih]

/-- An order-respecting map commutes with insertion sort. -/
theorem map_insertionSort_of_rel {α : Type} (r : α → α → Prop)
    [DecidableRel r] (f : α → α)
    (hf : ∀ a b, r (f a) (f b) ↔ r a b) (l : List α) :
    (l.insertionSort r).map f = (l.map f).insertionSort r := by
  induction l with
  | nil => rfl
  | cons a t ih =>
    simp only [List.insertionSort, List.map_cons]
    rw [map_orderedInsert_of_rel r f hf, ih]

/-- Two user tables equal up to passwd give erasure-equal `find?`
results for any passwd-blind predicate. -/
theorem find?_map_erase (l1 l2 : List UserRow)
    (h : l1.map erasePasswd = l2.map erasePasswd) (p : UserRow → Bool)
    (hp : ∀ u, p (erasePasswd u) = p u) :
    Option.map erasePasswd (l1.find? p)
      = Option.map erasePasswd (l2.find? p) := by
  have hpe : (fun u => p (erasePasswd u)) = p := funext hp
  have e : ∀ l : List UserRow,
      (l.map erasePasswd).find? p = Option.map erasePasswd (l.find? p) := by
    intro l
    rw [List.find?_map]
    show Option.map erasePasswd (l.find? (fun u => p (erasePasswd u)))
      = Option.map erasePasswd (l.find? p)
    rw [hpe]
  rw [← e l1, ← e l2, h]

/-- `userToJson` never reads passwd, so it is erasure-blind. -/
theorem userToJson_eq_of_erase (u1 u2 : UserRow)
    (h : erasePasswd u1 = erasePasswd u2) : userToJson u1 = userToJson u2 := by
  have e : userToJson (erasePasswd u1) = userToJson (erasePasswd u2) :=
    congrArg userToJson h
  exact e

/-- One SET clause preserves erasure-equality of rows. -/
theorem erase_applyUserField (u1 u2 : UserRow) (kv : String × Jval)
    (h : erasePasswd u1 = erasePasswd u2) :
    erasePasswd (applyUserField u1 kv)
      = erasePasswd (applyUserField u2 kv) := by
  have huid0 := congrArg UserRow.uid h
  have hemail0 := congrArg UserRow.email h
  have hpub0 := congrArg UserRow.is_publisher h
  have hadm0 := congrArg UserRow.is_admin h
  have huid : u1.uid = u2.uid := huid0
  have hemail : u1.email = u2.email := hemail0
  have hpub : u1.is_publisher = u2.is_publisher := hpub0
  have hadm : u1.is_admin = u2.is_admin := hadm0
  clear huid0 hemail0 hpub0 hadm0
  obtain ⟨k, v⟩ := kv
  by_cases h1 : k = "email"
  · subst h1
    cases v <;> simp_all [applyUserField, erasePasswd]
  · by_cases h2 : k = "passwd"
    · subst h2
      cases v <;> simp_all [applyUserField, erasePasswd]
    · by_cases h3 : k = "is_publisher"
      · subst h3
        cases v <;> simp_all [applyUserField, erasePasswd]
      · by_cases h4 : k = "is_admin"
        · subst h4
          cases v <;> simp_all [applyUserField, erasePasswd]
        · simpa [applyUserField, h1, h2, h3, h4] using h

/-- The whole SET list preserves erasure-equality of rows. -/
theorem erase_foldl_applyUserField (fields : List (String × Jval)) :
    ∀ u1 u2 : UserRow, erasePasswd u1 = erasePasswd u2 →
      erasePasswd (fields.foldl applyUserField u1)
        = erasePasswd (fields.foldl applyUserField u2) := by
  induction fields with
  | nil => intro u1 u2 h; exact h
  | cons kv t ih =>
    intro u1 u2 h
    exact ih _ _ (erase_applyUserField u1 u2 kv h)

/-- Claim C10: no success response of a user endpoint carries the
passwd column, and all user-endpoint responses are identical across
two stores that differ only in stored passwd values (user tables equal
after erasure, other relevant state equal). -/
theorem C10_passwd_never_in_output :
    (∀ (s1 s2 : DB) (data : Jobj) (fU fW : Bool) (uid : Nat),
      s1.users.map erasePasswd = s2.users.map erasePasswd →
      s1.wallets = s2.wallets → s1.nextUid = s2.nextUid →
      (create_user s1 data fU fW).1 = (create_user s2 data fU fW).1 ∧
      get_users s1 = get_users s2 ∧
      get_user s1 uid = get_user s2 uid ∧
      (update_user s1 uid data).1 = (update_user s2 uid data).1) ∧
    (∀ (st : DB) (data : Jobj) (fU fW : Bool),
      (create_user st data fU fW).1.status = 201 →
      ∃ o, (create_user st data fU fW).1.body = .obj o ∧
        o.lookup "passwd" = none) ∧
    (∀ st : DB, ∃ l, get_users st = ⟨200, .arr l⟩ ∧
      ∀ o ∈ l, o.lookup "passwd" = none) ∧
    (∀ (st : DB) (uid : Nat), (get_user st uid).status = 200 →
      ∃ o, (get_user st uid).body = .obj o ∧ o.lookup "passwd" = none) ∧
    (∀ (st : DB) (uid : Nat) (data : Jobj),
      (update_user st uid data).1.status = 200 →
      ∃ o, (update_user st uid data).1.body = .obj o ∧
        o.lookup "passwd" = none) := by
  refine ⟨?_, ?_, ?_, ?_, ?_⟩
  · intro s1 s2 data fU fW uid husers hw hnu
    have hanyn : ∀ n : Nat,
        s1.users.any (fun x => x.uid == n)
          = s2.users.any (fun x => x.uid == n) := by
      intro n
      calc s1.users.any (fun x => x.uid == n)
          = (s1.users.map erasePasswd).any (fun x => x.uid == n) := by
            rw [List.any_map]
            rfl
        _ = (s2.users.map erasePasswd).any (fun x => x.uid == n) := by
            rw [husers]
        _ = s2.users.any (fun x => x.uid == n) := by
            rw [List.any_map]
            rfl
    have hfind : ∀ m : Nat,
        Option.map erasePasswd (s1.users.find? (fun x => x.uid == m))
          = Option.map erasePasswd (s2.users.find? (fun x => x.uid == m)) :=
      fun m => find?_map_erase s1.users s2.users husers
        (fun x => x.uid == m) (fun _ => rfl)
    refine ⟨?_, ?_, ?_, ?_⟩
    · unfold create_user
      rw [hnu, hw, hanyn s2.nextUid]
      split
      · split
        · split
          · rfl
          · split <;> rfl
        · rfl
      · rfl
    · unfold get_users
      have e1 : ∀ l : List UserRow,
          (l.insertionSort uidLe).map userToJson
            = ((l.map erasePasswd).insertionSort uidLe).map userToJson := by
        intro l
        calc (l.insertionSort uidLe).map userToJson
            = ((l.insertionSort uidLe).map erasePasswd).map userToJson := by
              rw [List.map_map]
              rfl
          _ = ((l.map erasePasswd).insertionSort uidLe).map userToJson := by
              rw [map_insertionSort_of_rel uidLe erasePasswd
                (fun a b => Iff.rfl) l]
      rw [e1 s1.users, e1 s2.users, husers]
    · unfold get_user
      cases o1 : s1.users.find? (fun x => x.uid == uid) with
      | none =>
        cases o2 : s2.users.find? (fun x => x.uid == uid) with
        | none => rfl
        | some u2 =>
          have := hfind uid
          rw [o1, o2] at this
          exact absurd this (by simp)
      | some u1 =>
        cases o2 : s2.users.find? (fun x => x.uid == uid) with
        | none =>
          have := hfind uid
          rw [o1, o2] at this
          exact absurd this (by simp)
        | some u2 =>
          have he : erasePasswd u1 = erasePasswd u2 := by
            have := hfind uid
            rw [o1, o2] at this
            simpa using this
          simp [userToJson_eq_of_erase u1 u2 he]
    · simp only [update_user]
      by_cases h1 : (data.filter (fun kv =>
          decide (kv.1 ∈ validUserFields))).isEmpty = true
      · rw [if_pos h1, if_pos h1]
      · rw [if_neg h1, if_neg h1]
        by_cases h2 : (!(data.filter (fun kv =>
            decide (kv.1 ∈ validUserFields))).all userFieldOk) = true
        · rw [if_pos h2, if_pos h2]
        · rw [if_neg h2, if_neg h2]
          cases o1 : s1.users.find? (fun x => x.uid == uid) with
          | none =>
            cases o2 : s2.users.find? (fun x => x.uid == uid) with
            | none => rfl
            | some u2 =>
              have := hfind uid
              rw [o1, o2] at this
              exact absurd this (by simp)
          | some u1 =>
            cases o2 : s2.users.find? (fun x => x.uid == uid) with
            | none =>
              have := hfind uid
              rw [o1, o2] at this
              exact absurd this (by simp)
            | some u2 =>
              have he : erasePasswd u1 = erasePasswd u2 := by
                have := hfind uid
                rw [o1, o2] at this
                simpa using this
              have he2 := erase_foldl_applyUserField
                (data.filter (fun kv => decide (kv.1 ∈ validUserFields)))
                u1 u2 he
              simp [userToJson_eq_of_erase _ _ he2]
  · intro st data fU fW h
    obtain ⟨_, _, _, u, hresp, _, _⟩ := create_user_201 st data fU fW h
    exact ⟨userToJson u, by rw [hresp], rfl⟩
  · intro st
    refine ⟨(st.users.insertionSort uidLe).map userToJson, rfl, ?_⟩
    intro o ho
    obtain ⟨u, _, rfl⟩ := List.mem_map.mp ho
    rfl
  · intro st uid h
    unfold get_user at h ⊢
    cases o1 : st.users.find? (fun x => x.uid == uid) with
    | none =>
      rw [o1] at h
      simp [notFound] at h
    | some u => exact ⟨userToJson u, rfl, rfl⟩
  · intro st uid data h
    unfold update_user at h ⊢
    by_cases h1 : (data.filter (fun kv =>
        decide (kv.1 ∈ validUserFields))).isEmpty = true
    · rw [if_pos h1] at h
      simp [dbErr] at h
    · rw [if_neg h1] at h ⊢
      by_cases h2 : (!(data.filter (fun kv =>
          decide (kv.1 ∈ validUserFields))).all userFieldOk) = true
      · rw [if_pos h2] at h
        simp [dbErr] at h
      · rw [if_neg h2] at h ⊢
        cases o1 : st.users.find? (fun x => x.uid == uid) with
        | none =>
          rw [o1] at h
          simp [notFound] at h
        | some u => exact ⟨_, rfl, rfl⟩

/-- Claim C10 witness: two one-user stores differing only in the
stored password give identical user listings and reads. -/
theorem C10_passwd_never_in_output_witness :
    get_users ⟨[⟨1, "e@x", "pw1", false, false⟩], [], [], [], 2, 1⟩
      = get_users ⟨[⟨1, "e@x", "pw2", false, false⟩], [], [], [], 2, 1⟩ ∧
    get_user ⟨[⟨1, "e@x", "pw1", false, false⟩], [], [], [], 2, 1⟩ 1
      = get_user ⟨[⟨1, "e@x", "pw2", false, false⟩], [], [], [], 2, 1⟩ 1 := by
  have h := C10_passwd_never_in_output.1
    ⟨[⟨1, "e@x", "pw1", false, false⟩], [], [], [], 2, 1⟩
    ⟨[⟨1, "e@x", "pw2", false, false⟩], [], [], [], 2, 1⟩
    [] false false 1 (by rfl) (by rfl) (by rfl)
  exact ⟨h.2.1, h.2.2.1⟩
